import Mathlib

/-!
Verification development for the agentic-context-engine repository.

Shallow embedding of the two core components described in the design
document and exercised by the claims:

* the Role Invocation Bridge (`src/ace/claude/session.py`,
  `src/ace/claude/hooks.py`): dual-path role execution, structured
  result decoding, event hook broadcasting;
* the Closed-Cycle Phase State Machine
  (`src/ace/skills_builder/tools/closed_cycle.py`,
  `src/ace/skills_builder/tools/test_runner.py`,
  `src/ace/skills_builder/models.py`).

Python values flowing through the decoder are modelled by `JValue`;
stateful coordinator methods are modelled as explicit state-passing
functions; Python exceptions are modelled by `Except PyError`.
Wall-clock timestamps (`datetime.now()`) are not modelled: the recorded
transition structures keep every other field of the source model.
-/

/-- JSON-like values as produced by `json.loads` and passed around as
tool-result content.  Objects keep insertion order, as Python dicts do.
Numbers are modelled as integers (no claim touches float payloads). -/
inductive JValue where
  | str (s : String)
  | num (n : Int)
  | bool (b : Bool)
  | null
  | arr (xs : List JValue)
  | obj (fields : List (String × JValue))
deriving Repr

mutual

/-- Structural equality on `JValue` (models Python `==` on decoded JSON). -/
def JValue.beq : JValue → JValue → Bool
  | .str a, .str b => a == b
  | .num a, .num b => a == b
  | .bool a, .bool b => a == b
  | .null, .null => true
  | .arr a, .arr b => JValue.beqList a b
  | .obj a, .obj b => JValue.beqFields a b
  | _, _ => false

def JValue.beqList : List JValue → List JValue → Bool
  | [], [] => true
  | a :: as, b :: bs => JValue.beq a b && JValue.beqList as bs
  | _, _ => false

def JValue.beqFields : List (String × JValue) → List (String × JValue) → Bool
  | [], [] => true
  | (ka, va) :: as, (kb, vb) :: bs => ka == kb && JValue.beq va vb && JValue.beqFields as bs
  | _, _ => false

end

instance : BEq JValue := ⟨JValue.beq⟩

mutual

def JValue.beq_eq : ∀ {a b : JValue}, JValue.beq a b = true → a = b
  | .str _, .str _, h => by
      simp only [JValue.beq] at h; exact congrArg JValue.str (eq_of_beq h)
  | .num _, .num _, h => by
      simp only [JValue.beq] at h; exact congrArg JValue.num (eq_of_beq h)
  | .bool _, .bool _, h => by
      simp only [JValue.beq] at h; exact congrArg JValue.bool (eq_of_beq h)
  | .null, .null, _ => rfl
  | .arr _, .arr _, h => by
      simp only [JValue.beq] at h
      exact congrArg JValue.arr (JValue.beqList_eq h)
  | .obj _, .obj _, h => by
      simp only [JValue.beq] at h
      exact congrArg JValue.obj (JValue.beqFields_eq h)

def JValue.beqList_eq : ∀ {a b : List JValue}, JValue.beqList a b = true → a = b
  | [], [], _ => rfl
  | x :: xs, y :: ys, h => by
      simp only [JValue.beqList, Bool.and_eq_true] at h
      rw [JValue.beq_eq h.1, JValue.beqList_eq h.2]

def JValue.beqFields_eq :
    ∀ {a b : List (String × JValue)}, JValue.beqFields a b = true → a = b
  | [], [], _ => rfl
  | (ka, va) :: xs, (kb, vb) :: ys, h => by
      simp only [JValue.beqFields, Bool.and_eq_true] at h
      obtain ⟨⟨hk, hv⟩, ht⟩ := h
      rw [eq_of_beq hk, JValue.beq_eq hv, JValue.beqFields_eq ht]

end

mutual

def JValue.beq_refl : ∀ (a : JValue), JValue.beq a a = true
  | .str _ => by simp [JValue.beq]
  | .num _ => by simp [JValue.beq]
  | .bool _ => by simp [JValue.beq]
  | .null => rfl
  | .arr xs => by simp [JValue.beq, JValue.beqList_refl xs]
  | .obj fs => by simp [JValue.beq, JValue.beqFields_refl fs]

def JValue.beqList_refl : ∀ (a : List JValue), JValue.beqList a a = true
  | [] => rfl
  | x :: xs => by simp [JValue.beqList, JValue.beq_refl x, JValue.beqList_refl xs]

def JValue.beqFields_refl : ∀ (a : List (String × JValue)), JValue.beqFields a a = true
  | [] => rfl
  | (k, v) :: xs => by
      simp [JValue.beqFields, JValue.beq_refl v, JValue.beqFields_refl xs]

end

instance : DecidableEq JValue := fun a b =>
  if h : JValue.beq a b = true then
    isTrue (JValue.beq_eq h)
  else
    isFalse (fun he => h (he ▸ JValue.beq_refl a))

/-- Python `dict` lookup on a decoded JSON object (`data.get(key)` /
`key in data`).  JSON decoding keeps the last occurrence of a duplicate
key, hence the reversed search. -/
def dictGet (fields : List (String × JValue)) (key : String) : Option JValue :=
  (fields.reverse.find? (fun kv => kv.fst == key)).map (fun kv => kv.snd)

/-- Python `str()` applied to a decoded JSON value.  Strings, numbers,
booleans and `None` follow Python rendering; container reprs are not
reproduced (no claim inspects them). -/
def pyStr : JValue → String
  | .str s => s
  | .num n => toString n
  | .bool b => if b then "True" else "False"
  | .null => "None"
  | .arr _ => "[...]"
  | .obj _ => "\x7b...\x7d"

/-- Skip JSON whitespace. -/
def skipWs : List Char → List Char
  | c :: rest =>
      if c = ' ' ∨ c = '\n' ∨ c = '\t' ∨ c = '\r' then skipWs rest else c :: rest
  | [] => []

/-- Parse the body of a JSON string literal after the opening quote.
Common escapes are handled; `\u` escapes are out of the modelled subset. -/
def parseStrAux : List Char → List Char → Option (String × List Char)
  | acc, '"' :: rest => some (String.mk acc.reverse, rest)
  | acc, '\\' :: c :: rest =>
      match c with
      | '"' => parseStrAux ('"' :: acc) rest
      | '\\' => parseStrAux ('\\' :: acc) rest
      | '/' => parseStrAux ('/' :: acc) rest
      | 'n' => parseStrAux ('\n' :: acc) rest
      | 't' => parseStrAux ('\t' :: acc) rest
      | 'r' => parseStrAux ('\r' :: acc) rest
      | _ => none
  | _, '\\' :: [] => none
  | acc, c :: rest => parseStrAux (c :: acc) rest
  | _, [] => none

/-- Split a leading run of decimal digits. -/
def takeDigits : List Char → List Char × List Char
  | c :: rest =>
      if c.isDigit then
        let (ds, rs) := takeDigits rest
        (c :: ds, rs)
      else ([], c :: rest)
  | [] => ([], [])

/-- Decimal value of a digit run. -/
def digitsToNat (ds : List Char) : Nat :=
  ds.foldl (fun acc c => acc * 10 + (c.toNat - '0'.toNat)) 0

/-- Parse a JSON integer (floats are out of the modelled subset). -/
def parseNumber (cs : List Char) : Option (JValue × List Char) :=
  let (neg, cs1) :=
    match cs with
    | '-' :: rest => (true, rest)
    | _ => (false, cs)
  let (ds, rest) := takeDigits cs1
  if ds.isEmpty then none
  else
    match rest with
    | '.' :: _ => none
    | 'e' :: _ => none
    | 'E' :: _ => none
    | _ =>
        let n : Int := Int.ofNat (digitsToNat ds)
        some (.num (if neg then -n else n), rest)

mutual

/-- Fuel-indexed recursive-descent parser modelling `json.loads` on the
subset of JSON exchanged by the bridge (objects, arrays, strings,
integers, booleans, null). -/
def parseJ : Nat → List Char → Option (JValue × List Char)
  | 0, _ => none
  | fuel + 1, cs =>
      match skipWs cs with
      | '"' :: rest =>
          match parseStrAux [] rest with
          | some (s, rs) => some (.str s, rs)
          | none => none
      | 't' :: 'r' :: 'u' :: 'e' :: rest => some (.bool true, rest)
      | 'f' :: 'a' :: 'l' :: 's' :: 'e' :: rest => some (.bool false, rest)
      | 'n' :: 'u' :: 'l' :: 'l' :: rest => some (.null, rest)
      | '[' :: rest =>
          match skipWs rest with
          | ']' :: rs => some (.arr [], rs)
          | cs' => parseArrItems fuel cs' []
      | '{' :: rest =>
          match skipWs rest with
          | '}' :: rs => some (.obj [], rs)
          | cs' => parseObjItems fuel cs' []
      | cs' => parseNumber cs'

/-- Parse the elements of a non-empty JSON array; `acc` holds the
already-parsed elements in reverse. -/
def parseArrItems : Nat → List Char → List JValue → Option (JValue × List Char)
  | 0, _, _ => none
  | fuel + 1, cs, acc =>
      match parseJ fuel cs with
      | none => none
      | some (v, rest) =>
          match skipWs rest with
          | ',' :: rs => parseArrItems fuel rs (v :: acc)
          | ']' :: rs => some (.arr (v :: acc).reverse, rs)
          | _ => none

/-- Parse the members of a non-empty JSON object; `acc` holds the
already-parsed members in reverse. -/
def parseObjItems : Nat → List Char → List (String × JValue) →
    Option (JValue × List Char)
  | 0, _, _ => none
  | fuel + 1, cs, acc =>
      match skipWs cs with
      | '"' :: rest =>
          match parseStrAux [] rest with
          | none => none
          | some (k, rs) =>
              match skipWs rs with
              | ':' :: rs' =>
                  match parseJ fuel rs' with
                  | none => none
                  | some (v, rest') =>
                      match skipWs rest' with
                      | ',' :: rs'' => parseObjItems fuel rs'' ((k, v) :: acc)
                      | '}' :: rs'' => some (.obj ((k, v) :: acc).reverse, rs'')
                      | _ => none
              | _ => none
      | _ => none

end

/-- Top-level entry mirroring `json.loads(text)`: the whole input must be
consumed up to trailing whitespace. -/
def jsonParse (s : String) : Option JValue :=
  match parseJ (s.length + 1) s.data with
  | some (v, rest) => if skipWs rest = [] then some v else none
  | none => none

/- ------------------------------------------------------------------ -/
/- Role Output Model and the local role-implementation interface.      -/
/- ------------------------------------------------------------------ -/

/-- Modelled from the spec: the strategy repository ("playbook") is an
external collaborator (`ace/playbook.py` is not under `src/`); the
bridge only reads its prompt rendering via `as_prompt()` and passes the
object through by reference. -/
structure Playbook where
  as_prompt : String
deriving Repr, DecidableEq

/-- Generator (Producer) role output record.  Field names follow the
constructor calls in `ACEClaudeSession._coerce_generator_output`
(`ace/roles.py` itself is not under `src/`; the spec documents the
record in its data-model section). -/
structure GeneratorOutput where
  reasoning : String
  final_answer : String
  bullet_ids : List String
  raw : JValue
deriving Repr, DecidableEq

/-- One (id, tag) pair of a Reflector output, as constructed in
`ACEClaudeSession._coerce_reflector_output`. -/
structure BulletTag where
  id : String
  tag : String
deriving Repr, DecidableEq

/-- Reflector (Critic) role output record, fields as constructed in
`ACEClaudeSession._coerce_reflector_output`. -/
structure ReflectorOutput where
  reasoning : String
  error_identification : String
  root_cause_analysis : String
  correct_approach : String
  key_insight : String
  bullet_tags : List BulletTag
  raw : JValue
deriving Repr, DecidableEq

/-- Modelled from the spec: `DeltaBatch.from_json` lives in
`ace/delta.py`, which is not under `src/`.  The spec describes an
ordered sequence of operations decoded from a JSON object; the bridge
treats the decoded batch as opaque, so the model keeps the source
object it was parsed from. -/
structure DeltaBatch where
  source : List (String × JValue)
deriving Repr, DecidableEq

/-- Modelled from the spec: JSON-object decoding of a delta batch. -/
def DeltaBatch.from_json (fields : List (String × JValue)) : DeltaBatch :=
  ⟨fields⟩

/-- Curator role output record, as constructed in
`ACEClaudeSession._coerce_curator_output`. -/
structure CuratorOutput where
  delta : DeltaBatch
  raw : JValue
deriving Repr, DecidableEq

/-- Modelled from the spec: local Generator implementation interface
(`ace/roles.py` is not under `src/`).  `generate` receives exactly the
keyword arguments forwarded by
`ACEClaudeSession._run_generator_locally`. -/
structure Generator where
  generate : String → Option String → Playbook → Option String → GeneratorOutput

/-- Modelled from the spec: local Reflector implementation interface;
`reflect` receives (question, generator_output, playbook, ground_truth,
feedback) as forwarded by `ACEClaudeSession._run_reflector_locally`. -/
structure Reflector where
  reflect : String → GeneratorOutput → Playbook → Option String → Option String →
    ReflectorOutput

/-- Modelled from the spec: local Curator implementation interface;
`curate` receives (reflection, playbook, question_context, progress) as
forwarded by `ACEClaudeSession._run_curator_locally`. -/
structure Curator where
  curate : ReflectorOutput → Playbook → String → String → CuratorOutput

/- ------------------------------------------------------------------ -/
/- Python exceptions raised by the bridge.                             -/
/- ------------------------------------------------------------------ -/

/-- Exceptions that escape bridge code.  `runtimeUnavailable` models the
dedicated `ClaudeAgentRuntimeUnavailable` subclass of `RuntimeError`;
`runtimeError` models a plain `RuntimeError`; `valueError` models
`ValueError`. -/
inductive PyError where
  | runtimeUnavailable (msg : String)
  | runtimeError (msg : String)
  | valueError (msg : String)
deriving Repr, DecidableEq

/-- Does this error have the `ClaudeAgentRuntimeUnavailable` class? -/
def PyError.is_runtime_unavailable : PyError → Bool
  | .runtimeUnavailable _ => true
  | _ => false

instance {ε α : Type _} [DecidableEq ε] [DecidableEq α] : DecidableEq (Except ε α)
  | .ok a, .ok b => if h : a = b then isTrue (by rw [h]) else isFalse (by simp [h])
  | .ok _, .error _ => isFalse (by simp)
  | .error _, .ok _ => isFalse (by simp)
  | .error a, .error b => if h : a = b then isTrue (by rw [h]) else isFalse (by simp [h])

/-- Python `str.strip()` on the whitespace the decoder meets (ASCII
whitespace; the full Unicode table is not modelled). -/
def pyStrip (s : String) : String :=
  let ws : Char → Bool := fun c =>
    c = ' ' ∨ c = '\n' ∨ c = '\t' ∨ c = '\r' ∨ c = '\x0b' ∨ c = '\x0c'
  String.mk (((s.data.dropWhile ws).reverse.dropWhile ws).reverse)

/- ------------------------------------------------------------------ -/
/- Structured Result Decoder (session.py lines 592-657).               -/
/- ------------------------------------------------------------------ -/

/-- Text contributed by a fragment list: `str(item["text"])` for every
list element that is a dict containing a `"text"` key, concatenated
(`ACEClaudeSession._parse_tool_result`, list branch). -/
def fragment_text (items : List JValue) : String :=
  String.join (items.filterMap (fun item =>
    match item with
    | .obj fields => (dictGet fields "text").map pyStr
    | _ => none))

/-- `ACEClaudeSession._parse_tool_result`: a dict is returned as is; a
string or fragment list is normalized to one text blob; empty text
yields the empty object; otherwise the text must parse as a JSON
object. -/
def parse_tool_result (content : JValue) : Except PyError (List (String × JValue)) :=
  match content with
  | .obj fields => .ok fields
  | _ =>
      let text : String :=
        match content with
        | .str s => pyStrip s
        | .arr items => pyStrip (fragment_text items)
        | _ => ""
      if text = "" then .ok []
      else
        match jsonParse text with
        | none => .error (.valueError ("Claude agent returned non-JSON payload: " ++ text))
        | some (.obj fields) => .ok fields
        | some _ => .error (.valueError "Claude agent result must be a JSON object.")

/-- One element of a `bullet_ids` payload: kept when it is a string or
an int (Python bools are ints, so JSON booleans are kept as
`"True"`/`"False"`), rendered with `str(...)`. -/
def bullet_id_of_item : JValue → Option String
  | .str s => some s
  | .num n => some (toString n)
  | .bool b => some (if b then "True" else "False")
  | _ => none

/-- `ACEClaudeSession._coerce_generator_output`.  A string payload for
`bullet_ids` is a Python `Sequence` of one-character strings, hence the
`.str` branch. -/
def coerce_generator_output (data : List (String × JValue)) : GeneratorOutput :=
  let reasoning := pyStr ((dictGet data "reasoning").getD (.str ""))
  let final_answer := pyStr ((dictGet data "final_answer").getD (.str ""))
  let bullet_ids_payload := (dictGet data "bullet_ids").getD (.arr [])
  let bullet_ids : List String :=
    match bullet_ids_payload with
    | .arr xs => xs.filterMap bullet_id_of_item
    | .str s => s.data.map (fun c => String.singleton c)
    | _ => []
  { reasoning := reasoning
    final_answer := final_answer
    bullet_ids := bullet_ids
    raw := .obj data }

/-- `ACEClaudeSession._coerce_reflector_output`.  Only dict elements
carrying both `"id"` and `"tag"` become tags; a string payload iterates
over characters, none of which is a dict, so it contributes nothing. -/
def coerce_reflector_output (data : List (String × JValue)) : ReflectorOutput :=
  let tags_payload := (dictGet data "bullet_tags").getD (.arr [])
  let bullet_tags : List BulletTag :=
    match tags_payload with
    | .arr xs => xs.filterMap (fun item =>
        match item with
        | .obj fields =>
            match dictGet fields "id", dictGet fields "tag" with
            | some i, some t => some ⟨pyStr i, (pyStr t).toLower⟩
            | _, _ => none
        | _ => none)
    | _ => []
  { reasoning := pyStr ((dictGet data "reasoning").getD (.str ""))
    error_identification := pyStr ((dictGet data "error_identification").getD (.str ""))
    root_cause_analysis := pyStr ((dictGet data "root_cause_analysis").getD (.str ""))
    correct_approach := pyStr ((dictGet data "correct_approach").getD (.str ""))
    key_insight := pyStr ((dictGet data "key_insight").getD (.str ""))
    bullet_tags := bullet_tags
    raw := .obj data }

/-- `ACEClaudeSession._coerce_curator_output`.  The input is always the
dict returned by `_parse_tool_result`, so the not-a-dict `ValueError`
branch of the source is unreachable here; a dict under the `"delta"`
key takes precedence as the batch source. -/
def coerce_curator_output (data : List (String × JValue)) : CuratorOutput :=
  let target : List (String × JValue) :=
    match dictGet data "delta" with
    | some (.obj fields) => fields
    | _ => data
  { delta := DeltaBatch.from_json target, raw := .obj data }

/- ------------------------------------------------------------------ -/
/- Event Hook Bus (hooks.py / session.py _emit_hook).                  -/
/- ------------------------------------------------------------------ -/

/-- Values stored in a hook payload dict.  Besides JSON-able values the
session stores role outputs, the playbook reference and the decoded
delta batch under dedicated keys. -/
inductive PValue where
  | jv (v : JValue)
  | gen (g : GeneratorOutput)
  | refl (r : ReflectorOutput)
  | cur (c : CuratorOutput)
  | pb (p : Playbook)
  | dl (d : DeltaBatch)
deriving Repr, DecidableEq

/-- A hook payload: a Python dict in insertion order. -/
abbrev Payload : Type := List (String × PValue)

/-- Python dict lookup on a payload (`payload.get(key)`); the dicts
built by the session never repeat a key, and `dict.update` with fresh
keys appends, so last-wins lookup matches Python semantics. -/
def payloadGet (p : Payload) (key : String) : Option PValue :=
  (p.reverse.find? (fun kv => kv.fst == key)).map (fun kv => kv.snd)

/-- `HookMatcher` (hooks.py): an event label plus a callback.  The
callback is modelled as a pure function returning `Except String Unit`
(`.error` models a raising callback); `id` gives the matcher an
observable identity for invocation traces. -/
structure HookMatcher where
  event : String
  id : Nat
  callback : String → Payload → Except String Unit

/-- `HookMatcher.__call__`: run the callback only when the label
matches; `none` means the callback was not invoked. -/
def hookMatcherCall (h : HookMatcher) (event : String) (payload : Payload) :
    Option (Except String Unit) :=
  if h.event = event then some (h.callback event payload) else none

/-- `ACEClaudeSession._emit_hook`: call every registered hook in
registration order inside a per-call try/except; a raising callback is
logged and the loop continues.  The result is the ordered trace of
callback invocations (matcher id, callback outcome). -/
def emit_hook (hooks : List HookMatcher) (event : String) (payload : Payload) :
    List (Nat × Except String Unit) :=
  match hooks with
  | [] => []
  | h :: rest =>
      match hookMatcherCall h event payload with
      | some r => (h.id, r) :: emit_hook rest event payload
      | none => emit_hook rest event payload

/- ------------------------------------------------------------------ -/
/- Remote attempt protocol (session.py _invoke_claude_agent_via_sdk).  -/
/- ------------------------------------------------------------------ -/

/-- A content block of an assistant message; only `ToolResultBlock`s are
inspected by the drain loop. -/
inductive ContentBlock where
  | toolResult (tool_use_id : String) ( is_error : Bool) (content : JValue)
  | other
deriving Repr

/-- A message yielded by the remote exchange: an assistant turn, the
terminal result message, or anything else (ignored). -/
inductive SdkMessage where
  | assistant (content : List ContentBlock)
  | result ( is_error : Bool) (result : Option String)
  | other
deriving Repr

/-- Block scan of one assistant message: a matching tool-result block
flagged as error raises `RuntimeError`; otherwise its content replaces
the candidate result. -/
def scan_blocks (agent : String) (tool_use_id : String) (acc : Option JValue) :
    List ContentBlock → Except PyError (Option JValue)
  | [] => .ok acc
  | .toolResult bid berr bcontent :: rest =>
      if bid = tool_use_id then
        if berr then
          .error (.runtimeError
            ("Claude agent " ++ agent ++ " returned an error: " ++ pyStr bcontent))
        else scan_blocks agent tool_use_id (some bcontent) rest
      else scan_blocks agent tool_use_id acc rest
  | .other :: rest => scan_blocks agent tool_use_id acc rest

/-- Python `x or default` on an optional string: `None` and the empty
string both fall back to the default. -/
def pyOrStr (x : Option String) (default : String) : String :=
  match x with
  | some s => if s = "" then default else s
  | none => default

/-- The message drain loop of `_invoke_claude_agent_via_sdk`: consume
every message, track the latest matching tool-result content, and raise
`RuntimeError` on an error-flagged block or terminal result. -/
def drain_messages (agent : String) (tool_use_id : String) (acc : Option JValue) :
    List SdkMessage → Except PyError (Option JValue)
  | [] => .ok acc
  | .assistant blocks :: rest =>
      match scan_blocks agent tool_use_id acc blocks with
      | .error e => .error e
      | .ok acc' => drain_messages agent tool_use_id acc' rest
  | .result rerr rres :: rest =>
      if rerr then
        .error (.runtimeError
          (pyOrStr rres ("Claude agent " ++ agent ++ " reported an error.")))
      else drain_messages agent tool_use_id acc rest
  | .other :: rest => drain_messages agent tool_use_id acc rest

/- ------------------------------------------------------------------ -/
/- ACEClaudeSession state and role runners.                            -/
/- ------------------------------------------------------------------ -/

/-- The session state relevant to role invocation.  `sdk_available`
models the module-level SDK import succeeding; `messages` is the
ordered response stream the transport yields for the one-shot exchange;
`tool_use_id` is the correlation id generated for the request;
`agent_invoker` is the optional injected invoker that bypasses the SDK
transport. -/
structure ACEClaudeSession where
  sdk_available : Bool
  tool_use_id : String
  messages : List SdkMessage
  agent_invoker : Option (String → List (String × JValue) → Option (List (String × JValue)))
  fallback_generator : Option Generator
  fallback_reflector : Option Reflector
  fallback_curator : Option Curator
  hooks : List HookMatcher

/-- `_invoke_claude_agent_via_sdk`: fail with
`ClaudeAgentRuntimeUnavailable` when the SDK is missing, submit the
request, drain the exchange, and decode the candidate result (if any)
through `_parse_tool_result`. -/
def invoke_claude_agent_via_sdk (s : ACEClaudeSession) (agent : String)
    (_payload : List (String × JValue)) :
    Except PyError (Option (List (String × JValue))) :=
  if s.sdk_available = false then
    .error (.runtimeUnavailable "Claude Agent SDK is not fully available for agent execution.")
  else
    match drain_messages agent s.tool_use_id none s.messages with
    | .error e => .error e
    | .ok none => .ok none
    | .ok (some content) =>
        match parse_tool_result content with
        | .error e => .error e
        | .ok fields => .ok (some fields)

/-- `_invoke_claude_agent`: prefer the injected invoker, else the SDK
transport. -/
def invoke_claude_agent (s : ACEClaudeSession) (agent : String)
    (payload : List (String × JValue)) :
    Except PyError (Option (List (String × JValue))) :=
  match s.agent_invoker with
  | some f => .ok (f agent payload)
  | none => invoke_claude_agent_via_sdk s agent payload

/-- `Option String` to JSON value (`None` becomes JSON null). -/
def jOptStr : Option String → JValue
  | some s => .str s
  | none => .null

/-- `Option Int` to JSON value. -/
def jOptInt : Option Int → JValue
  | some n => .num n
  | none => .null

/-- `_run_generator_via_sdk`: build the agent payload, invoke the agent,
and coerce a present result. -/
def run_generator_via_sdk (s : ACEClaudeSession) (question : String)
    (context : Option String) (playbook : Playbook) (reflection : Option String) :
    Except PyError (Option GeneratorOutput) :=
  let payload : List (String × JValue) :=
    [("question", .str question), ("context", jOptStr context),
     ("playbook", .str playbook.as_prompt), ("reflection", jOptStr reflection),
     ("llm_kwargs", .null)]
  match invoke_claude_agent s "ace-generator" payload with
  | .error e => .error e
  | .ok none => .ok none
  | .ok (some fields) => .ok (some (coerce_generator_output fields))

/-- `_run_generator_locally`: fail with `ClaudeAgentRuntimeUnavailable`
when no fallback generator is registered, else delegate to it. -/
def run_generator_locally (s : ACEClaudeSession) (question : String)
    (context : Option String) (playbook : Playbook) (reflection : Option String) :
    Except PyError GeneratorOutput :=
  match s.fallback_generator with
  | none =>
      .error (.runtimeUnavailable
        "Generator fallback not configured; cannot run without Claude SDK session.")
  | some g => .ok (g.generate question context playbook reflection)

/-- Record of one `_emit_hook` call made by a role runner. -/
structure EmitRecord where
  event : String
  payload : Payload
  calls : List (Nat × Except String Unit)

/-- Result of one role runner invocation: the value returned or the
exception raised, and the ordered hook emissions performed. -/
structure RunTrace (α : Type) where
  result : Except PyError α
  emits : List EmitRecord

/-- The remote-attempt stage of `run_generator`: only entered when the
SDK is available; `ClaudeAgentRuntimeUnavailable` propagates, any other
exception is logged and treated as "no remote result". -/
def gen_remote (s : ACEClaudeSession) (question : String) (context : Option String)
    (playbook : Playbook) (reflection : Option String) :
    Except PyError (Option GeneratorOutput) :=
  if s.sdk_available then
    match run_generator_via_sdk s question context playbook reflection with
    | .ok o => .ok o
    | .error (.runtimeUnavailable m) => .error (.runtimeUnavailable m)
    | .error _ => .ok none
  else .ok none

/-- `ACEClaudeSession.run_generator`: emit the "before" hook, attempt
the remote path, fall back to the local generator, emit the "after"
hook with the normalized output, and return it. -/
def run_generator (s : ACEClaudeSession) (question : String) (context : Option String)
    (playbook : Playbook) (reflection : Option String) (sample : Option JValue)
    (epoch : Option Int) (step : Option Int) : RunTrace GeneratorOutput :=
  let payload : Payload :=
    [("agent", .jv (.str "ace-generator")), ("question", .jv (.str question)),
     ("context", .jv (jOptStr context)), ("reflection", .jv (jOptStr reflection)),
     ("sample", .jv (sample.getD .null)), ("epoch", .jv (jOptInt epoch)),
     ("step", .jv (jOptInt step))]
  let pre : EmitRecord := ⟨"pre_tool_use", payload, emit_hook s.hooks "pre_tool_use" payload⟩
  match gen_remote s question context playbook reflection with
  | .error e => ⟨.error e, [pre]⟩
  | .ok remote =>
      let localResult : Except PyError GeneratorOutput :=
        match remote with
        | some o => .ok o
        | none => run_generator_locally s question context playbook reflection
      match localResult with
      | .error e => ⟨.error e, [pre]⟩
      | .ok output =>
          let payload2 : Payload :=
            payload ++ [("result", .jv output.raw), ("generator_output", .gen output),
              ("playbook", .pb playbook)]
          let post : EmitRecord :=
            ⟨"post_tool_use", payload2, emit_hook s.hooks "post_tool_use" payload2⟩
          ⟨.ok output, [pre, post]⟩

/-- `_run_reflector_via_sdk`: build the agent payload, invoke the
agent, and coerce a present result. -/
def run_reflector_via_sdk (s : ACEClaudeSession) (question : String)
    (generator_output : GeneratorOutput) (playbook : Playbook)
    (ground_truth : Option String) (feedback : Option String) :
    Except PyError (Option ReflectorOutput) :=
  let payload : List (String × JValue) :=
    [("question", .str question),
     ("generator_reasoning", .str generator_output.reasoning),
     ("generator_prediction", .str generator_output.final_answer),
     ("generator_bullet_ids", .arr (generator_output.bullet_ids.map JValue.str)),
     ("generator_raw", generator_output.raw),
     ("playbook", .str playbook.as_prompt),
     ("ground_truth", jOptStr ground_truth), ("feedback", jOptStr feedback),
     ("llm_kwargs", .null)]
  match invoke_claude_agent s "ace-reflector" payload with
  | .error e => .error e
  | .ok none => .ok none
  | .ok (some fields) => .ok (some (coerce_reflector_output fields))

/-- `_run_reflector_locally`: fail with `ClaudeAgentRuntimeUnavailable`
when no fallback reflector is registered, else delegate to it. -/
def run_reflector_locally (s : ACEClaudeSession) (question : String)
    (generator_output : GeneratorOutput) (playbook : Playbook)
    (ground_truth : Option String) (feedback : Option String) :
    Except PyError ReflectorOutput :=
  match s.fallback_reflector with
  | none =>
      .error (.runtimeUnavailable
        "Reflector fallback not configured; cannot run without Claude SDK session.")
  | some r => .ok (r.reflect question generator_output playbook ground_truth feedback)

/-- The remote-attempt stage of `run_reflector`. -/
def refl_remote (s : ACEClaudeSession) (question : String)
    (generator_output : GeneratorOutput) (playbook : Playbook)
    (ground_truth : Option String) (feedback : Option String) :
    Except PyError (Option ReflectorOutput) :=
  if s.sdk_available then
    match run_reflector_via_sdk s question generator_output playbook ground_truth feedback with
    | .ok o => .ok o
    | .error (.runtimeUnavailable m) => .error (.runtimeUnavailable m)
    | .error _ => .ok none
  else .ok none

/-- `ACEClaudeSession.run_reflector`. -/
def run_reflector (s : ACEClaudeSession) (question : String)
    (generator_output : GeneratorOutput) (playbook : Playbook)
    (ground_truth : Option String) (feedback : Option String) (sample : Option JValue)
    (epoch : Option Int) (step : Option Int) : RunTrace ReflectorOutput :=
  let payload : Payload :=
    [("agent", .jv (.str "ace-reflector")), ("question", .jv (.str question)),
     ("sample", .jv (sample.getD .null)), ("epoch", .jv (jOptInt epoch)),
     ("step", .jv (jOptInt step)), ("feedback", .jv (jOptStr feedback)),
     ("ground_truth", .jv (jOptStr ground_truth))]
  let pre : EmitRecord := ⟨"pre_tool_use", payload, emit_hook s.hooks "pre_tool_use" payload⟩
  match refl_remote s question generator_output playbook ground_truth feedback with
  | .error e => ⟨.error e, [pre]⟩
  | .ok remote =>
      let localResult : Except PyError ReflectorOutput :=
        match remote with
        | some o => .ok o
        | none => run_reflector_locally s question generator_output playbook ground_truth feedback
      match localResult with
      | .error e => ⟨.error e, [pre]⟩
      | .ok output =>
          let payload2 : Payload :=
            payload ++ [("result", .jv output.raw), ("reflection_output", .refl output)]
          let post : EmitRecord :=
            ⟨"post_tool_use", payload2, emit_hook s.hooks "post_tool_use" payload2⟩
          ⟨.ok output, [pre, post]⟩

/-- `_run_curator_via_sdk`: build the agent payload, invoke the agent,
and coerce a present result. -/
def run_curator_via_sdk (s : ACEClaudeSession) (reflection : ReflectorOutput)
    (playbook : Playbook) (question_context : String) (progress : String) :
    Except PyError (Option CuratorOutput) :=
  let payload : List (String × JValue) :=
    [("reflection", reflection.raw), ("playbook", .str playbook.as_prompt),
     ("question_context", .str question_context), ("progress", .str progress),
     ("llm_kwargs", .null)]
  match invoke_claude_agent s "ace-curator" payload with
  | .error e => .error e
  | .ok none => .ok none
  | .ok (some fields) => .ok (some (coerce_curator_output fields))

/-- `_run_curator_locally`: fail with `ClaudeAgentRuntimeUnavailable`
when no fallback curator is registered, else delegate to it. -/
def run_curator_locally (s : ACEClaudeSession) (reflection : ReflectorOutput)
    (playbook : Playbook) (question_context : String) (progress : String) :
    Except PyError CuratorOutput :=
  match s.fallback_curator with
  | none =>
      .error (.runtimeUnavailable
        "Curator fallback not configured; cannot run without Claude SDK session.")
  | some c => .ok (c.curate reflection playbook question_context progress)

/-- The remote-attempt stage of `run_curator`. -/
def cur_remote (s : ACEClaudeSession) (reflection : ReflectorOutput)
    (playbook : Playbook) (question_context : String) (progress : String) :
    Except PyError (Option CuratorOutput) :=
  if s.sdk_available then
    match run_curator_via_sdk s reflection playbook question_context progress with
    | .ok o => .ok o
    | .error (.runtimeUnavailable m) => .error (.runtimeUnavailable m)
    | .error _ => .ok none
  else .ok none

/-- `ACEClaudeSession.run_curator`. -/
def run_curator (s : ACEClaudeSession) (reflection : ReflectorOutput)
    (playbook : Playbook) (question_context : String) (progress : String)
    (sample : Option JValue) (epoch : Option Int) (step : Option Int) :
    RunTrace CuratorOutput :=
  let payload : Payload :=
    [("agent", .jv (.str "ace-curator")), ("sample", .jv (sample.getD .null)),
     ("epoch", .jv (jOptInt epoch)), ("step", .jv (jOptInt step))]
  let pre : EmitRecord := ⟨"pre_tool_use", payload, emit_hook s.hooks "pre_tool_use" payload⟩
  match cur_remote s reflection playbook question_context progress with
  | .error e => ⟨.error e, [pre]⟩
  | .ok remote =>
      let localResult : Except PyError CuratorOutput :=
        match remote with
        | some o => .ok o
        | none => run_curator_locally s reflection playbook question_context progress
      match localResult with
      | .error e => ⟨.error e, [pre]⟩
      | .ok output =>
          let payload2 : Payload :=
            payload ++ [("result", .jv output.raw), ("delta", .dl output.delta),
              ("curator_output", .cur output)]
          let post : EmitRecord :=
            ⟨"post_tool_use", payload2, emit_hook s.hooks "post_tool_use" payload2⟩
          ⟨.ok output, [pre, post]⟩

/- ------------------------------------------------------------------ -/
/- Skills-builder data models (models.py).                             -/
/- ------------------------------------------------------------------ -/

/-- `TestResult` (models.py): outcome of one test execution.  Coverage
ratios and durations are modelled as rationals.  The pydantic bound
constraints are not re-stated; the claims do not rely on them. -/
structure TestResult where
  test_mode : String
  passed : Bool
  total_tests : Nat := 0
  failed_tests : Nat := 0
  coverage_branch : ℚ := 0
  coverage_lines : ℚ := 0
  json_report_path : Option String := none
  stderr_summary : Option String := none
  duration_seconds : ℚ := 0
deriving Repr, DecidableEq

/-- `PhaseTransition` (models.py): one recorded transition.  The
coordinator never passes `retry_count`, so it always carries the
pydantic default 0.  The wall-clock `timestamp` field is not
modelled. -/
structure PhaseTransition where
  from_phase : String
  to_phase : String
  session_id : String
  task_id : String
  retry_count : Nat := 0
  trigger_reason : Option String := none
deriving Repr, DecidableEq

/-- `ClosedCycleSummary` (models.py) restricted to the fields the
coordinator computes from its own state; the markdown rendering and the
permission-mode list involve wall-clock timestamps and session config
not modelled here. -/
structure ClosedCycleSummary where
  session_id : String
  task_id : String
  accepted_deltas : List String
  rejected_deltas : List String
  test_results : List TestResult
  artifact_links : List (String × String)
deriving Repr, DecidableEq

/- ------------------------------------------------------------------ -/
/- TestRunner (test_runner.py).                                        -/
/- ------------------------------------------------------------------ -/

/-- Coverage thresholds (`SkillsLoopConfig.coverage_thresholds`); the
default dict carries both keys, so a record models it. -/
structure CoverageThresholds where
  branch : ℚ := 0.8
  lines : ℚ := 0.85
deriving Repr, DecidableEq

/-- Parsed `summary` block of the pytest JSON report
(`summary.get("total", 0)` / `summary.get("failed", 0)`). -/
structure PytestReportSummary where
  total : Option Nat := none
  failed : Option Nat := none
deriving Repr, DecidableEq

/-- Parsed `totals` block of the coverage JSON report. -/
structure CoverageTotals where
  num_statements : Option Nat := none
  covered_lines : Option Nat := none
  num_branches : Option Nat := none
  covered_branches : Option Nat := none
deriving Repr, DecidableEq

/-- Observables of one completed pytest subprocess run: return code,
captured stderr, the located-and-parsed JSON report and coverage file
(`none` models missing or unparsable), the report path, and the
measured duration. -/
structure PytestExecution where
  returncode : Int
  stderr : String
  report : Option PytestReportSummary := none
  coverage : Option CoverageTotals := none
  json_report_path : Option String := none
  duration : ℚ := 0
deriving Repr, DecidableEq

/-- How the pytest subprocess call ended: a timeout, some other raised
exception (carrying `str(e)`), or a completed process. -/
inductive PytestOutcome where
  | timeoutExpired
  | raised (msg : String) (duration : ℚ)
  | completed (execution : PytestExecution)
deriving Repr, DecidableEq

/-- Python `stderr.split("\n")`: split on newline characters. -/
def split_newlines_aux : List Char → List Char → List String
  | acc, [] => [String.mk acc.reverse]
  | acc, '\n' :: rest => String.mk acc.reverse :: split_newlines_aux [] rest
  | acc, c :: rest => split_newlines_aux (c :: acc) rest

/-- Python `"\n".join(xs)`. -/
def join_newlines : List String → String
  | [] => ""
  | [x] => x
  | x :: xs => x ++ "\n" ++ join_newlines xs

/-- Python `"\n".join(lines[-10:])` applied to captured stderr. -/
def last_ten_lines (s : String) : String :=
  let ls := split_newlines_aux [] s.data
  join_newlines (ls.drop (ls.length - 10))

/-- `TestRunner._parse_pytest_output` on a completed subprocess run. -/
def parse_pytest_output (exec : PytestExecution) : TestResult :=
  let total_tests := (exec.report.bind (fun r => r.total)).getD 0
  let failed_tests := (exec.report.bind (fun r => r.failed)).getD 0
  let coverage_lines : ℚ :=
    match exec.coverage with
    | none => 0
    | some t =>
        if (t.num_statements.getD 0) > 0 then
          ((t.covered_lines.getD 0 : ℚ)) / ((t.num_statements.getD 1 : ℚ))
        else 0
  let coverage_branch : ℚ :=
    match exec.coverage with
    | none => 0
    | some t =>
        if (t.num_branches.getD 0) > 0 then
          ((t.covered_branches.getD 0 : ℚ)) / ((t.num_branches.getD 1 : ℚ))
        else 0
  let passed := exec.returncode = 0 ∧ failed_tests = 0
  { test_mode := "pytest"
    passed := decide passed
    total_tests := total_tests
    failed_tests := failed_tests
    coverage_branch := coverage_branch
    coverage_lines := coverage_lines
    json_report_path := exec.json_report_path
    stderr_summary := if decide passed then none else some (last_ten_lines exec.stderr)
    duration_seconds := exec.duration }

/-- `TestRunner._check_coverage_thresholds`. -/
def check_coverage_thresholds (thr : CoverageThresholds) (tr : TestResult) : Bool :=
  decide (tr.coverage_branch ≥ thr.branch) && decide (tr.coverage_lines ≥ thr.lines)

/-- `TestRunner._run_dry_run`: `import_error` is `str(e)` of a failing
`import ace`, `none` when the import succeeds. -/
def run_dry_run (import_error : Option String) : TestResult :=
  { test_mode := "dry_run"
    passed := import_error.isNone
    total_tests := 0
    failed_tests := 0
    stderr_summary := import_error.map (fun e => "Import validation failed: " ++ e)
    duration_seconds := 0 }

/-- `TestRunner.run_tests`: dry-run validation, or a pytest run whose
timeout and exception branches are converted into failed results; a
passing result is downgraded when coverage thresholds are not met. -/
def run_tests (thr : CoverageThresholds) (dry_run : Bool)
    (import_error : Option String) (outcome : PytestOutcome) : TestResult :=
  if dry_run then run_dry_run import_error
  else
    match outcome with
    | .timeoutExpired =>
        { test_mode := "pytest"
          passed := false
          stderr_summary := some "Test execution timed out after 600 seconds"
          duration_seconds := 600 }
    | .raised msg duration =>
        { test_mode := "pytest"
          passed := false
          stderr_summary := some msg
          duration_seconds := duration }
    | .completed exec =>
        let tr := parse_pytest_output exec
        if tr.passed then { tr with passed := check_coverage_thresholds thr tr }
        else tr

/- ------------------------------------------------------------------ -/
/- ClosedCycleCoordinator (closed_cycle.py).                           -/
/- ------------------------------------------------------------------ -/

/-- Python `x or "unknown"` on the optional session/task id (the empty
string is falsy). -/
def pyOrUnknown (x : Option String) : String :=
  match x with
  | some s => if s = "" then "unknown" else s
  | none => "unknown"

/-- Coordinator state (`ClosedCycleCoordinator.__init__`): the
configured coverage thresholds plus the session-scoped logs. -/
structure CoordinatorState where
  thresholds : CoverageThresholds
  session_id : Option String := none
  task_id : Option String := none
  phase_transitions : List PhaseTransition := []
  test_results : List TestResult := []
  accepted_deltas : List String := []
  rejected_deltas : List String := []

/-- `ClosedCycleCoordinator._transition_phase`: append one immutable
`PhaseTransition`; `retry_count` is never passed and keeps its
default. -/
def transition_phase (st : CoordinatorState) (from_phase to_phase reason : String) :
    CoordinatorState :=
  { st with phase_transitions := st.phase_transitions ++
      [{ from_phase := from_phase
         to_phase := to_phase
         session_id := pyOrUnknown st.session_id
         task_id := pyOrUnknown st.task_id
         trigger_reason := some reason }] }

/-- `ClosedCycleCoordinator.start_cycle` (state effect): set the ids and
record `idle → plan`. -/
def start_cycle (st : CoordinatorState) (session_id task_id _objective : String) :
    CoordinatorState :=
  transition_phase { st with session_id := some session_id, task_id := some task_id }
    "idle" "plan" "Starting closed cycle"

/-- `ClosedCycleCoordinator.execute_plan_phase` (state effect). -/
def execute_plan_phase (st : CoordinatorState) (_objective : String) : CoordinatorState :=
  transition_phase st "plan" "build" "Plan created successfully"

/-- `ClosedCycleCoordinator.execute_build_phase` (state effect). -/
def execute_build_phase (st : CoordinatorState) : CoordinatorState :=
  transition_phase st "build" "test" "Build completed"

/-- `ClosedCycleCoordinator.execute_test_phase`: record `build → test`,
run the external test tool (its result is the `runner_result`
parameter), append the outcome, then branch on `passed`. -/
def execute_test_phase (st : CoordinatorState) (runner_result : TestResult) :
    CoordinatorState × TestResult :=
  let st1 := transition_phase st "build" "test" "Running tests"
  let st2 := { st1 with test_results := st1.test_results ++ [runner_result] }
  if runner_result.passed then
    (transition_phase st2 "test" "review" "Tests passed", runner_result)
  else
    (transition_phase st2 "test" "build"
      ("Tests failed: " ++ toString runner_result.failed_tests ++ " failures"),
     runner_result)

/-- The review record built by `execute_review_phase`. -/
structure ReviewResult where
  test_passed : Bool
  coverage_ok : Bool
  recommendation : String
deriving Repr, DecidableEq

/-- `ClosedCycleCoordinator.execute_review_phase`: compute the coverage
flag, recommend "accept" exactly when the tests passed, and branch.
The build-artifacts argument of the source is unused by the body. -/
def execute_review_phase (st : CoordinatorState) (test_result : TestResult) :
    CoordinatorState × ReviewResult :=
  let review : ReviewResult :=
    { test_passed := test_result.passed
      coverage_ok :=
        decide (test_result.coverage_branch ≥ st.thresholds.branch) &&
        decide (test_result.coverage_lines ≥ st.thresholds.lines)
      recommendation := if test_result.passed then "accept" else "reject" }
  if review.recommendation = "accept" then
    let st1 := { st with accepted_deltas :=
      st.accepted_deltas ++ ["delta_" ++ toString (st.accepted_deltas.length + 1)] }
    (transition_phase st1 "review" "document" "Delta accepted", review)
  else
    let st1 := { st with rejected_deltas :=
      st.rejected_deltas ++ ["delta_" ++ toString (st.rejected_deltas.length + 1)] }
    (transition_phase st1 "review" "build" "Delta rejected, retrying", review)

/-- `ClosedCycleCoordinator._generate_summary` restricted to the fields
computed from coordinator state (markdown rendering not modelled). -/
def generate_summary (st : CoordinatorState) : ClosedCycleSummary :=
  { session_id := pyOrUnknown st.session_id
    task_id := pyOrUnknown st.task_id
    accepted_deltas := st.accepted_deltas
    rejected_deltas := st.rejected_deltas
    test_results := st.test_results
    artifact_links :=
      (st.test_results.enum.filterMap (fun p =>
        p.2.json_report_path.map (fun path => ("test_report_" ++ toString p.1, path)))) }

/-- `ClosedCycleCoordinator.execute_document_phase`: record
`review → document`, build the summary, record `document → complete`. -/
def execute_document_phase (st : CoordinatorState) :
    CoordinatorState × ClosedCycleSummary :=
  let st1 := transition_phase st "review" "document" "Generating documentation"
  let summary := generate_summary st1
  (transition_phase st1 "document" "complete" "Cycle completed", summary)

/-- One public coordinator operation, for quantifying over arbitrary
call sequences. -/
inductive CycleOp where
  | start (session_id task_id objective : String)
  | plan (objective : String)
  | build
  | test (runner_result : TestResult)
  | review (test_result : TestResult)
  | document
deriving Repr

/-- Apply one coordinator operation to the state. -/
def apply_op (st : CoordinatorState) : CycleOp → CoordinatorState
  | .start sid tid obj => start_cycle st sid tid obj
  | .plan obj => execute_plan_phase st obj
  | .build => execute_build_phase st
  | .test r => (execute_test_phase st r).1
  | .review r => (execute_review_phase st r).1
  | .document => (execute_document_phase st).1

/-- Run a sequence of coordinator operations. -/
def run_ops (st : CoordinatorState) (ops : List CycleOp) : CoordinatorState :=
  ops.foldl apply_op st

/-- The fixed transition table of the design document. -/
def transition_table : List (String × String) :=
  [("idle", "plan"), ("plan", "build"), ("build", "test"), ("test", "review"),
   ("test", "build"), ("review", "document"), ("review", "build"),
   ("document", "complete")]

/- ------------------------------------------------------------------ -/
/- Concrete fixtures for scenario evaluation.                          -/
/- ------------------------------------------------------------------ -/

/-- An empty strategy repository rendering. -/
def emptyPlaybook : Playbook := ⟨""⟩

/-- A distinctive output produced by a stub local generator. -/
def localGenOutput : GeneratorOutput :=
  { reasoning := "local", final_answer := "4", bullet_ids := ["b-1"], raw := .null }

/-- A stub local generator implementation returning `localGenOutput`. -/
def localGen : Generator := ⟨fun _ _ _ _ => localGenOutput⟩

/-- A distinctive output produced by a stub local reflector. -/
def localReflOutput : ReflectorOutput :=
  { reasoning := "local", error_identification := "", root_cause_analysis := ""
    correct_approach := "", key_insight := "use addition", bullet_tags := []
    raw := .null }

/-- A stub local reflector implementation returning `localReflOutput`. -/
def localRefl : Reflector := ⟨fun _ _ _ _ _ => localReflOutput⟩

/-- A distinctive output produced by a stub local curator. -/
def localCurOutput : CuratorOutput := { delta := ⟨[]⟩, raw := .null }

/-- A stub local curator implementation returning `localCurOutput`. -/
def localCur : Curator := ⟨fun _ _ _ _ => localCurOutput⟩

/-- A session with no SDK available and all three local fallbacks
registered (local-only configuration). -/
def localOnlySession : ACEClaudeSession :=
  { sdk_available := false
    tool_use_id := ""
    messages := []
    agent_invoker := none
    fallback_generator := some localGen
    fallback_reflector := some localRefl
    fallback_curator := some localCur
    hooks := [] }

/-- A session with no SDK and no registered fallbacks (unconfigured). -/
def unconfiguredSession : ACEClaudeSession :=
  { sdk_available := false
    tool_use_id := ""
    messages := []
    agent_invoker := none
    fallback_generator := none
    fallback_reflector := none
    fallback_curator := none
    hooks := [] }

/-- A session whose remote exchange yields a terminal result message
flagged as an error with message "boom", with local fallbacks
registered. -/
def boomSession : ACEClaudeSession :=
  { sdk_available := true
    tool_use_id := "tid"
    messages := [.result true (some "boom")]
    agent_invoker := none
    fallback_generator := some localGen
    fallback_reflector := some localRefl
    fallback_curator := some localCur
    hooks := [] }

/-- Scenario E candidate content with the field names exactly as the
design document writes them (camelCase). -/
def scenarioECamel : String :=
  "\x7b\"finalAnswer\":\"42\",\"bulletIds\":[\"b-1\"]\x7d"

/-- Scenario E candidate content with the field names the decoder
actually reads (snake_case, as in the repository's own tests). -/
def scenarioESnake : String :=
  "\x7b\"final_answer\":\"42\",\"bullet_ids\":[\"b-1\"]\x7d"

/-- A completed pytest run: all tests green, but coverage far below the
default thresholds. -/
def lowCoverageExecution : PytestExecution :=
  { returncode := 0
    stderr := ""
    report := some { total := some 5, failed := some 0 }
    coverage := some
      { num_statements := some 10
        covered_lines := some 0
        num_branches := some 4
        covered_branches := some 0 }
    json_report_path := some "r.json"
    duration := 1 }

/-- A failing test outcome with two failures (Scenario C). -/
def failedTwiceResult : TestResult :=
  { test_mode := "pytest", passed := false, failed_tests := 2 }

/-- A passing test outcome with zero coverage (exposes the unused
coverage check in the review policy). -/
def passedNoCoverageResult : TestResult :=
  { test_mode := "pytest", passed := true }

/-- A fresh coordinator with the default coverage thresholds. -/
def freshCoordinator : CoordinatorState := { thresholds := {} }

/-- The coordinator state reached by start/plan/build on a fresh
coordinator. -/
def coordinatorAfterBuild : CoordinatorState :=
  execute_build_phase (execute_plan_phase
    (start_cycle freshCoordinator "s-1" "t-1" "obj") "obj")

/-- The transition-table membership check used by the state-machine
invariant. -/
def in_transition_table (t : PhaseTransition) : Bool :=
  transition_table.contains (t.from_phase, t.to_phase)

/- ------------------------------------------------------------------ -/
/- Theorems settling the claims.                                       -/
/- ------------------------------------------------------------------ -/

/-- C3, counterexample.  The decoded output for the literal Scenario E
content string (camelCase keys, as the design document prints it) has
`final_answer = ""` and `bullet_ids = []`: the coercion reads the
snake_case keys `final_answer` / `bullet_ids`, so the claimed values
"42" and ["b-1"] do not appear in the typed fields (they survive only
in `raw`). -/
theorem claim_C3_counterexample :
    parse_tool_result (.str scenarioECamel) =
      .ok [("finalAnswer", .str "42"), ("bulletIds", .arr [.str "b-1"])] ∧
    (coerce_generator_output
        [("finalAnswer", .str "42"), ("bulletIds", .arr [.str "b-1"])]).final_answer = "" ∧
    (coerce_generator_output
        [("finalAnswer", .str "42"), ("bulletIds", .arr [.str "b-1"])]).bullet_ids = [] ∧
    ¬ ((coerce_generator_output
        [("finalAnswer", .str "42"), ("bulletIds", .arr [.str "b-1"])]).final_answer = "42") ∧
    ¬ ((coerce_generator_output
        [("finalAnswer", .str "42"), ("bulletIds", .arr [.str "b-1"])]).bullet_ids = ["b-1"]) := by
  decide

/-- C3, amended: for a remote candidate result whose content is the
string with the decoder's snake_case keys,
`'{"final_answer":"42","bullet_ids":["b-1"]}'`, the decoded generator
output has `final_answer = "42"` and `bullet_ids = ["b-1"]` (and the
full decoded object is preserved in `raw`); the camelCase spelling of
the design document is decoded to default-empty typed fields. -/
theorem claim_C3 :
    parse_tool_result (.str scenarioESnake) =
      .ok [("final_answer", .str "42"), ("bullet_ids", .arr [.str "b-1"])] ∧
    coerce_generator_output
        [("final_answer", .str "42"), ("bullet_ids", .arr [.str "b-1"])] =
      { reasoning := ""
        final_answer := "42"
        bullet_ids := ["b-1"]
        raw := .obj [("final_answer", .str "42"), ("bullet_ids", .arr [.str "b-1"])] } := by
  decide

/-- C10: content that normalizes to an empty or whitespace-only text
blob (an empty/whitespace string, or a fragment list contributing no
text) decodes to the empty object without raising, and the
generator/reflector coercions of the empty object produce all-default
typed fields with `raw` the empty object. -/
theorem claim_C10 :
    (∀ s : String, pyStrip s = "" → parse_tool_result (.str s) = .ok []) ∧
    (∀ items : List JValue,
      pyStrip (fragment_text items) = "" → parse_tool_result (.arr items) = .ok []) ∧
    coerce_generator_output [] =
      { reasoning := "", final_answer := "", bullet_ids := [], raw := .obj [] } ∧
    coerce_reflector_output [] =
      { reasoning := "", error_identification := "", root_cause_analysis := ""
        correct_approach := "", key_insight := "", bullet_tags := [], raw := .obj [] } := by
  refine ⟨?_, ?_, by decide, by decide⟩
  · intro s h
    simp [parse_tool_result, h]
  · intro items h
    simp [parse_tool_result, h]

/-- C10, witness: the whitespace-only string and a fragment list whose
only text is whitespace both decode to the empty object. -/
theorem claim_C10_witness :
    pyStrip "   " = "" ∧
    pyStrip (fragment_text [.obj [("text", .str "  ")], .str "ignored"]) = "" ∧
    parse_tool_result (.str "   ") = .ok [] ∧
    parse_tool_result (.arr [.obj [("text", .str "  ")], .str "ignored"]) = .ok [] :=
  ⟨by decide, by decide,
   claim_C10.1 "   " (by decide),
   claim_C10.2.1 [.obj [("text", .str "  ")], .str "ignored"] (by decide)⟩

/-- `_transition_phase` preserves the table invariant whenever the
appended pair is in the table. -/
theorem transition_phase_table (st : CoordinatorState) (f t r : String)
    (hf : (f, t) ∈ transition_table)
    (h : st.phase_transitions.all in_transition_table = true) :
    (transition_phase st f t r).phase_transitions.all in_transition_table = true := by
  simp [transition_phase, List.all_append, h, in_transition_table, hf]

/-- Each coordinator operation appends only pairs from the fixed
transition table. -/
theorem apply_op_table (st : CoordinatorState) (op : CycleOp)
    (h : st.phase_transitions.all in_transition_table = true) :
    (apply_op st op).phase_transitions.all in_transition_table = true := by
  cases op with
  | start sid tid obj =>
      exact transition_phase_table _ _ _ _ (by decide) h
  | plan obj =>
      exact transition_phase_table _ _ _ _ (by decide) h
  | build =>
      exact transition_phase_table _ _ _ _ (by decide) h
  | test r =>
      have h1 := transition_phase_table st "build" "test" "Running tests" (by decide) h
      show (execute_test_phase st r).1.phase_transitions.all in_transition_table = true
      unfold execute_test_phase
      split
      · exact transition_phase_table _ _ _ _ (by decide) h1
      · exact transition_phase_table _ _ _ _ (by decide) h1
  | review r =>
      show (execute_review_phase st r).1.phase_transitions.all in_transition_table = true
      unfold execute_review_phase
      split
      · exact transition_phase_table _ _ _ _ (by decide) h
      · exact transition_phase_table _ _ _ _ (by decide) h
  | document =>
      show (execute_document_phase st).1.phase_transitions.all in_transition_table = true
      unfold execute_document_phase
      exact transition_phase_table _ _ _ _ (by decide)
        (transition_phase_table _ _ _ _ (by decide) h)

/-- Transition-table membership is preserved along any operation
sequence. -/
theorem run_ops_table :
    ∀ (ops : List CycleOp) (st : CoordinatorState),
      st.phase_transitions.all in_transition_table = true →
      (run_ops st ops).phase_transitions.all in_transition_table = true
  | [], _, h => h
  | op :: ops, st, h => run_ops_table ops (apply_op st op) (apply_op_table st op h)

/-- C6: for every sequence of phase-machine operations starting from a
freshly constructed coordinator, every `(from_phase, to_phase)` pair
appended to the transition log is a member of the fixed transition
table. -/
theorem claim_C6 (thr : CoverageThresholds) (ops : List CycleOp) :
    (run_ops { thresholds := thr } ops).phase_transitions.all in_transition_table = true :=
  run_ops_table ops { thresholds := thr } rfl

/-- C4, counterexample.  With the default thresholds, a review entry
whose test outcome passed with zero coverage is still accepted and
transitions `review → document`: the decision ignores the computed
`coverage_ok` flag, so "accept iff passed AND coverage meets
thresholds" is false. -/
theorem claim_C4_counterexample :
    (execute_review_phase freshCoordinator passedNoCoverageResult).2.recommendation =
      "accept" ∧
    (execute_review_phase freshCoordinator passedNoCoverageResult).2.coverage_ok = false ∧
    ((execute_review_phase freshCoordinator passedNoCoverageResult).1.phase_transitions.map
      (fun t => (t.from_phase, t.to_phase))) = [("review", "document")] := by
  refine ⟨by simp [execute_review_phase, freshCoordinator, passedNoCoverageResult], ?_, ?_⟩
  · norm_num [execute_review_phase, freshCoordinator, passedNoCoverageResult]
  · simp [execute_review_phase, freshCoordinator, passedNoCoverageResult, transition_phase]

/-- C4, amended: under the default Review-phase policy the decision is
"accept" if and only if the previous test outcome passed — the coverage
ratios are computed into the reported `coverage_ok` flag but do not
influence the decision; when the tests passed the next transition is
`(review, document)`. -/
theorem claim_C4 (st : CoordinatorState) (tr : TestResult) :
    ((execute_review_phase st tr).2.recommendation = "accept" ↔ tr.passed = true) ∧
    (tr.passed = true →
      (execute_review_phase st tr).1.phase_transitions =
        st.phase_transitions ++
          [{ from_phase := "review", to_phase := "document"
             session_id := pyOrUnknown st.session_id
             task_id := pyOrUnknown st.task_id
             trigger_reason := some "Delta accepted" }]) := by
  constructor
  · cases hp : tr.passed <;> simp [execute_review_phase, hp]
  · intro hp
    simp [execute_review_phase, hp, transition_phase]

/-- C4, witness: instantiated at a fresh coordinator and a passing test
outcome. -/
theorem claim_C4_witness :
    (execute_review_phase freshCoordinator passedNoCoverageResult).2.recommendation =
      "accept" ∧
    (execute_review_phase freshCoordinator passedNoCoverageResult).1.phase_transitions =
      [{ from_phase := "review", to_phase := "document"
         session_id := "unknown", task_id := "unknown"
         trigger_reason := some "Delta accepted" }] :=
  ⟨(claim_C4 freshCoordinator passedNoCoverageResult).1.mpr (by decide),
   by simpa using (claim_C4 freshCoordinator passedNoCoverageResult).2 (by decide)⟩

/-- C5, counterexample.  Running start/plan/build and then a Test phase
whose outcome failed with two failures records `(test, build)` whose
`retry_count` is 0 — equal to, not one more than, the `retry_count` of
the preceding transition — refuting the claimed increment. -/
theorem claim_C5_counterexample :
    ((execute_test_phase coordinatorAfterBuild failedTwiceResult).1.phase_transitions.map
      (fun t => (t.from_phase, t.to_phase, t.retry_count))) =
      [("idle", "plan", 0), ("plan", "build", 0), ("build", "test", 0),
       ("build", "test", 0), ("test", "build", 0)] ∧
    ¬ (((execute_test_phase coordinatorAfterBuild
          failedTwiceResult).1.phase_transitions.getLast?.map
        PhaseTransition.retry_count) = some 1) ∧
    (execute_test_phase coordinatorAfterBuild failedTwiceResult).1.accepted_deltas = [] := by
  decide

/-- C5, amended: for every Test-phase entry whose outcome has
`passed = false`, the recorded transitions are `(build, test)` followed
by `(test, build)`, both with `retry_count = 0` (the coordinator never
sets `retry_count`, so it keeps its default instead of being
incremented), and `accepted_deltas` is unchanged. -/
theorem claim_C5 (st : CoordinatorState) (tr : TestResult) (hp : tr.passed = false) :
    (execute_test_phase st tr).1.phase_transitions =
      st.phase_transitions ++
        [{ from_phase := "build", to_phase := "test"
           session_id := pyOrUnknown st.session_id
           task_id := pyOrUnknown st.task_id
           trigger_reason := some "Running tests" },
         { from_phase := "test", to_phase := "build"
           session_id := pyOrUnknown st.session_id
           task_id := pyOrUnknown st.task_id
           trigger_reason := some ("Tests failed: " ++ toString tr.failed_tests ++ " failures") }] ∧
    (execute_test_phase st tr).1.accepted_deltas = st.accepted_deltas := by
  constructor <;> simp [execute_test_phase, hp, transition_phase]

/-- C5, witness: instantiated at the post-build coordinator state and a
failing outcome with two failures. -/
theorem claim_C5_witness :
    failedTwiceResult.passed = false ∧
    (execute_test_phase coordinatorAfterBuild failedTwiceResult).1.accepted_deltas =
      coordinatorAfterBuild.accepted_deltas :=
  ⟨by decide, (claim_C5 coordinatorAfterBuild failedTwiceResult (by decide)).2⟩

/-- A parsed pytest result that passed carries no stderr summary. -/
theorem parse_pytest_output_stderr_none (exec : PytestExecution)
    (h : (parse_pytest_output exec).passed = true) :
    (parse_pytest_output exec).stderr_summary = none := by
  simp only [parse_pytest_output] at h ⊢
  simp [h]

/-- C9, counterexample.  A completed run with return code 0, zero
failures, empty stderr but coverage far below the default thresholds is
returned with `passed = false` and `stderr_summary = none`: a failure
without a populated stderr summary, refuting "every failure … with a
populated (non-empty) stderrSummary". -/
theorem claim_C9_counterexample :
    (run_tests {} false none (.completed lowCoverageExecution)).passed = false ∧
    (run_tests {} false none (.completed lowCoverageExecution)).stderr_summary = none := by
  constructor <;>
    (simp [run_tests, parse_pytest_output, lowCoverageExecution,
       check_coverage_thresholds, last_ten_lines] <;> norm_num)

/-- C9, amended: `run_tests` is total (never raises in the model) and
execution-path failures are represented as failed results — a timeout
yields `passed = false` with the fixed timeout summary, and a raised
exception yields `passed = false` with `str(e)` as the summary — but a
run whose tests passed and only the coverage-threshold check failed is
returned with `passed = false` and `stderr_summary = none`. -/
theorem claim_C9 (thr : CoverageThresholds) (d : ℚ) (m : String)
    (exec : PytestExecution) :
    ((run_tests thr false none .timeoutExpired).passed = false ∧
     (run_tests thr false none .timeoutExpired).stderr_summary =
       some "Test execution timed out after 600 seconds") ∧
    ((run_tests thr false none (.raised m d)).passed = false ∧
     (run_tests thr false none (.raised m d)).stderr_summary = some m) ∧
    ((parse_pytest_output exec).passed = true →
      check_coverage_thresholds thr (parse_pytest_output exec) = false →
      (run_tests thr false none (.completed exec)).passed = false ∧
      (run_tests thr false none (.completed exec)).stderr_summary = none) := by
  refine ⟨⟨rfl, rfl⟩, ⟨rfl, rfl⟩, ?_⟩
  intro h1 h2
  constructor
  · simp [run_tests, h1, h2]
  · simp [run_tests, h1, h2, parse_pytest_output_stderr_none exec h1]

/-- C9, witness: the coverage-failure branch instantiated at the
all-green low-coverage run under the default thresholds. -/
theorem claim_C9_witness :
    (parse_pytest_output lowCoverageExecution).passed = true ∧
    check_coverage_thresholds {} (parse_pytest_output lowCoverageExecution) = false ∧
    (run_tests {} false none (.completed lowCoverageExecution)).stderr_summary = none := by
  have h1 : (parse_pytest_output lowCoverageExecution).passed = true := by
    simp [parse_pytest_output, lowCoverageExecution]
  have h2 : check_coverage_thresholds {} (parse_pytest_output lowCoverageExecution) = false := by
    norm_num [check_coverage_thresholds, parse_pytest_output, lowCoverageExecution]
  exact ⟨h1, h2, (claim_C9 {} 0 "" lowCoverageExecution).2.2 h1 h2 |>.2⟩

/-- C1: when no remote backend is configured (`sdk_available = false`)
and a local implementation is registered, each role runner returns
exactly the local implementation's output on the same arguments, and
emits exactly one "before" (`pre_tool_use`) and one "after"
(`post_tool_use`) event, in that order, both carrying the role name
under the payload's `agent` key. -/
theorem claim_C1 (s : ACEClaudeSession) (hs : s.sdk_available = false) :
    (∀ (g : Generator) (q : String) (ctx refl : Option String) (pb : Playbook)
        (sample : Option JValue) (epoch step : Option Int),
      s.fallback_generator = some g →
        (run_generator s q ctx pb refl sample epoch step).result =
          .ok (g.generate q ctx pb refl) ∧
        (run_generator s q ctx pb refl sample epoch step).emits.map
            (fun e => (e.event, payloadGet e.payload "agent")) =
          [("pre_tool_use", some (.jv (.str "ace-generator"))),
           ("post_tool_use", some (.jv (.str "ace-generator")))]) ∧
    (∀ (r : Reflector) (q : String) (go : GeneratorOutput) (pb : Playbook)
        (gt fb : Option String) (sample : Option JValue) (epoch step : Option Int),
      s.fallback_reflector = some r →
        (run_reflector s q go pb gt fb sample epoch step).result =
          .ok (r.reflect q go pb gt fb) ∧
        (run_reflector s q go pb gt fb sample epoch step).emits.map
            (fun e => (e.event, payloadGet e.payload "agent")) =
          [("pre_tool_use", some (.jv (.str "ace-reflector"))),
           ("post_tool_use", some (.jv (.str "ace-reflector")))]) ∧
    (∀ (c : Curator) (refl : ReflectorOutput) (pb : Playbook) (qc prog : String)
        (sample : Option JValue) (epoch step : Option Int),
      s.fallback_curator = some c →
        (run_curator s refl pb qc prog sample epoch step).result =
          .ok (c.curate refl pb qc prog) ∧
        (run_curator s refl pb qc prog sample epoch step).emits.map
            (fun e => (e.event, payloadGet e.payload "agent")) =
          [("pre_tool_use", some (.jv (.str "ace-curator"))),
           ("post_tool_use", some (.jv (.str "ace-curator")))]) := by
  obtain ⟨sdk, tid, msgs, inv, fg, fr, fc, hooks⟩ := s
  simp only at hs
  subst hs
  refine ⟨?_, ?_, ?_⟩
  · intro g q ctx refl pb sample epoch step hg
    simp only at hg
    subst hg
    exact ⟨rfl, rfl⟩
  · intro r q go pb gt fb sample epoch step hr
    simp only at hr
    subst hr
    exact ⟨rfl, rfl⟩
  · intro c refl pb qc prog sample epoch step hc
    simp only at hc
    subst hc
    exact ⟨rfl, rfl⟩

/-- C1, witness: the local-only session with stub implementations. -/
theorem claim_C1_witness :
    localOnlySession.sdk_available = false ∧
    localOnlySession.fallback_generator = some localGen ∧
    (run_generator localOnlySession "What is 2+2?" none emptyPlaybook none none none
      none).result = .ok localGenOutput ∧
    localOnlySession.fallback_reflector = some localRefl ∧
    (run_reflector localOnlySession "What is 2+2?" localGenOutput emptyPlaybook
      (some "4") (some "correct") none none none).result = .ok localReflOutput ∧
    localOnlySession.fallback_curator = some localCur ∧
    (run_curator localOnlySession localReflOutput emptyPlaybook "math" "1/1" none none
      none).result = .ok localCurOutput :=
  ⟨rfl, rfl,
   ((claim_C1 localOnlySession rfl).1 localGen "What is 2+2?" none none emptyPlaybook
     none none none rfl).1,
   rfl,
   ((claim_C1 localOnlySession rfl).2.1 localRefl "What is 2+2?" localGenOutput
     emptyPlaybook (some "4") (some "correct") none none none rfl).1,
   rfl,
   ((claim_C1 localOnlySession rfl).2.2 localCur localReflOutput emptyPlaybook
     "math" "1/1" none none none rfl).1⟩

/-- C7, counterexample.  When no remote result is obtainable and no
local generator is registered, the invocation fails with
`ClaudeAgentRuntimeUnavailable` ("Generator fallback not configured…")
— the very same exception class raised when the SDK runtime is missing
— so the claimed distinct `RoleUnavailable` error kind does not exist
in the code. -/
theorem claim_C7_counterexample :
    (run_generator unconfiguredSession "q" none emptyPlaybook none none none
      none).result =
      .error (.runtimeUnavailable
        "Generator fallback not configured; cannot run without Claude SDK session.") ∧
    invoke_claude_agent_via_sdk unconfiguredSession "ace-generator" [] =
      .error (.runtimeUnavailable
        "Claude Agent SDK is not fully available for agent execution.") := by
  exact ⟨rfl, rfl⟩

/-- C7, amended: when no remote result is obtained (SDK unavailable, or
SDK available with an empty exchange) and no local implementation is
registered, each role runner raises `ClaudeAgentRuntimeUnavailable`
whose message names the missing role fallback — the same exception
class (not a distinct `RoleUnavailable` kind) that signals a missing
runtime. -/
theorem claim_C7 (s : ACEClaudeSession) :
    (s.sdk_available = false →
      (∀ (q : String) (ctx refl : Option String) (pb : Playbook)
          (sample : Option JValue) (epoch step : Option Int),
        s.fallback_generator = none →
          (run_generator s q ctx pb refl sample epoch step).result =
            .error (.runtimeUnavailable
              "Generator fallback not configured; cannot run without Claude SDK session.")) ∧
      (∀ (q : String) (go : GeneratorOutput) (pb : Playbook) (gt fb : Option String)
          (sample : Option JValue) (epoch step : Option Int),
        s.fallback_reflector = none →
          (run_reflector s q go pb gt fb sample epoch step).result =
            .error (.runtimeUnavailable
              "Reflector fallback not configured; cannot run without Claude SDK session.")) ∧
      (∀ (refl : ReflectorOutput) (pb : Playbook) (qc prog : String)
          (sample : Option JValue) (epoch step : Option Int),
        s.fallback_curator = none →
          (run_curator s refl pb qc prog sample epoch step).result =
            .error (.runtimeUnavailable
              "Curator fallback not configured; cannot run without Claude SDK session."))) ∧
    (s.sdk_available = true → s.agent_invoker = none → s.messages = [] →
      (∀ (q : String) (ctx refl : Option String) (pb : Playbook)
          (sample : Option JValue) (epoch step : Option Int),
        s.fallback_generator = none →
          (run_generator s q ctx pb refl sample epoch step).result =
            .error (.runtimeUnavailable
              "Generator fallback not configured; cannot run without Claude SDK session."))) := by
  obtain ⟨sdk, tid, msgs, inv, fg, fr, fc, hooks⟩ := s
  constructor
  · intro hs
    simp only at hs
    subst hs
    refine ⟨?_, ?_, ?_⟩
    · intro q ctx refl pb sample epoch step hg
      simp only at hg
      subst hg
      rfl
    · intro q go pb gt fb sample epoch step hr
      simp only at hr
      subst hr
      rfl
    · intro refl pb qc prog sample epoch step hc
      simp only at hc
      subst hc
      rfl
  · intro hs hinv hmsg
    simp only at hs hinv hmsg
    subst hs
    subst hinv
    subst hmsg
    intro q ctx refl pb sample epoch step hg
    simp only at hg
    subst hg
    rfl

/-- C7, witness: the unconfigured session (no SDK, no fallbacks). -/
theorem claim_C7_witness :
    unconfiguredSession.sdk_available = false ∧
    unconfiguredSession.fallback_generator = none ∧
    (run_generator unconfiguredSession "q" none emptyPlaybook none none none
      none).result =
      .error (.runtimeUnavailable
        "Generator fallback not configured; cannot run without Claude SDK session.") :=
  ⟨rfl, rfl,
   (claim_C7 unconfiguredSession).1 rfl |>.1 "q" none none emptyPlaybook none none
     none rfl⟩

/-- C2, counterexample.  With a remote exchange that yields a terminal
result message flagged as an error with message "boom" and a registered
local generator, the invocation does NOT surface the error: the remote
attempt's `RuntimeError "boom"` is caught by the role runner and the
local fallback IS invoked — its output is returned. -/
theorem claim_C2_counterexample :
    invoke_claude_agent_via_sdk boomSession "ace-generator" [] =
      .error (.runtimeError "boom") ∧
    (run_generator boomSession "q" none emptyPlaybook none none none none).result =
      .ok localGenOutput := by
  exact ⟨rfl, rfl⟩

/-- C2, amended: a remote attempt that receives a terminal result
message flagged as an error with message "boom" raises a plain
`RuntimeError` whose payload is "boom"; each role runner catches this
error (it is not `ClaudeAgentRuntimeUnavailable`), logs it, and invokes
the registered local fallback, returning the fallback's output to the
caller. -/
theorem claim_C2 (s : ACEClaudeSession) (hs : s.sdk_available = true)
    (hinv : s.agent_invoker = none)
    (hmsg : s.messages = [.result true (some "boom")]) :
    (∀ (agent : String) (payload : List (String × JValue)),
      invoke_claude_agent_via_sdk s agent payload = .error (.runtimeError "boom")) ∧
    (∀ (g : Generator) (q : String) (ctx refl : Option String) (pb : Playbook)
        (sample : Option JValue) (epoch step : Option Int),
      s.fallback_generator = some g →
        (run_generator s q ctx pb refl sample epoch step).result =
          .ok (g.generate q ctx pb refl)) ∧
    (∀ (r : Reflector) (q : String) (go : GeneratorOutput) (pb : Playbook)
        (gt fb : Option String) (sample : Option JValue) (epoch step : Option Int),
      s.fallback_reflector = some r →
        (run_reflector s q go pb gt fb sample epoch step).result =
          .ok (r.reflect q go pb gt fb)) ∧
    (∀ (c : Curator) (refl : ReflectorOutput) (pb : Playbook) (qc prog : String)
        (sample : Option JValue) (epoch step : Option Int),
      s.fallback_curator = some c →
        (run_curator s refl pb qc prog sample epoch step).result =
          .ok (c.curate refl pb qc prog)) := by
  obtain ⟨sdk, tid, msgs, inv, fg, fr, fc, hooks⟩ := s
  simp only at hs hinv hmsg
  subst hs
  subst hinv
  subst hmsg
  refine ⟨fun agent payload => rfl, ?_, ?_, ?_⟩
  · intro g q ctx refl pb sample epoch step hg
    simp only at hg
    subst hg
    rfl
  · intro r q go pb gt fb sample epoch step hr
    simp only at hr
    subst hr
    rfl
  · intro c refl pb qc prog sample epoch step hc
    simp only at hc
    subst hc
    rfl

/-- C2, witness: the boom session with its stub local roles. -/
theorem claim_C2_witness :
    boomSession.sdk_available = true ∧
    boomSession.messages = [.result true (some "boom")] ∧
    invoke_claude_agent_via_sdk boomSession "ace-generator" [] =
      .error (.runtimeError "boom") ∧
    (run_generator boomSession "q" none emptyPlaybook none none none none).result =
      .ok localGenOutput :=
  ⟨rfl, rfl,
   (claim_C2 boomSession rfl rfl rfl).1 "ace-generator" [],
   ((claim_C2 boomSession rfl rfl rfl).2.1 localGen "q" none none emptyPlaybook
     none none none rfl)⟩

/-- The generator runner's returned value does not depend on the
registered hooks. -/
theorem run_generator_result_hooks (s : ACEClaudeSession) (hooks' : List HookMatcher)
    (q : String) (ctx : Option String) (pb : Playbook) (refl : Option String)
    (sample : Option JValue) (epoch step : Option Int) :
    (run_generator { s with hooks := hooks' } q ctx pb refl sample epoch step).result =
      (run_generator s q ctx pb refl sample epoch step).result := by
  obtain ⟨sdk, tid, msgs, inv, fg, fr, fc, hooks⟩ := s
  have hrem : gen_remote ⟨sdk, tid, msgs, inv, fg, fr, fc, hooks'⟩ q ctx pb refl =
      gen_remote ⟨sdk, tid, msgs, inv, fg, fr, fc, hooks⟩ q ctx pb refl := rfl
  have hloc :
      run_generator_locally ⟨sdk, tid, msgs, inv, fg, fr, fc, hooks'⟩ q ctx pb refl =
        run_generator_locally ⟨sdk, tid, msgs, inv, fg, fr, fc, hooks⟩ q ctx pb refl := rfl
  simp only [run_generator, hrem, hloc]
  cases gen_remote ⟨sdk, tid, msgs, inv, fg, fr, fc, hooks⟩ q ctx pb refl with
  | error e => rfl
  | ok remote =>
      cases remote with
      | some o => rfl
      | none =>
          cases run_generator_locally ⟨sdk, tid, msgs, inv, fg, fr, fc, hooks⟩
              q ctx pb refl with
          | error e => rfl
          | ok o => rfl

/-- The reflector runner's returned value does not depend on the
registered hooks. -/
theorem run_reflector_result_hooks (s : ACEClaudeSession) (hooks' : List HookMatcher)
    (q : String) (go : GeneratorOutput) (pb : Playbook) (gt fb : Option String)
    (sample : Option JValue) (epoch step : Option Int) :
    (run_reflector { s with hooks := hooks' } q go pb gt fb sample epoch step).result =
      (run_reflector s q go pb gt fb sample epoch step).result := by
  obtain ⟨sdk, tid, msgs, inv, fg, fr, fc, hooks⟩ := s
  have hrem : refl_remote ⟨sdk, tid, msgs, inv, fg, fr, fc, hooks'⟩ q go pb gt fb =
      refl_remote ⟨sdk, tid, msgs, inv, fg, fr, fc, hooks⟩ q go pb gt fb := rfl
  have hloc :
      run_reflector_locally ⟨sdk, tid, msgs, inv, fg, fr, fc, hooks'⟩ q go pb gt fb =
        run_reflector_locally ⟨sdk, tid, msgs, inv, fg, fr, fc, hooks⟩ q go pb gt fb := rfl
  simp only [run_reflector, hrem, hloc]
  cases refl_remote ⟨sdk, tid, msgs, inv, fg, fr, fc, hooks⟩ q go pb gt fb with
  | error e => rfl
  | ok remote =>
      cases remote with
      | some o => rfl
      | none =>
          cases run_reflector_locally ⟨sdk, tid, msgs, inv, fg, fr, fc, hooks⟩
              q go pb gt fb with
          | error e => rfl
          | ok o => rfl

/-- The curator runner's returned value does not depend on the
registered hooks. -/
theorem run_curator_result_hooks (s : ACEClaudeSession) (hooks' : List HookMatcher)
    (refl : ReflectorOutput) (pb : Playbook) (qc prog : String)
    (sample : Option JValue) (epoch step : Option Int) :
    (run_curator { s with hooks := hooks' } refl pb qc prog sample epoch step).result =
      (run_curator s refl pb qc prog sample epoch step).result := by
  obtain ⟨sdk, tid, msgs, inv, fg, fr, fc, hooks⟩ := s
  have hrem : cur_remote ⟨sdk, tid, msgs, inv, fg, fr, fc, hooks'⟩ refl pb qc prog =
      cur_remote ⟨sdk, tid, msgs, inv, fg, fr, fc, hooks⟩ refl pb qc prog := rfl
  have hloc :
      run_curator_locally ⟨sdk, tid, msgs, inv, fg, fr, fc, hooks'⟩ refl pb qc prog =
        run_curator_locally ⟨sdk, tid, msgs, inv, fg, fr, fc, hooks⟩ refl pb qc prog := rfl
  simp only [run_curator, hrem, hloc]
  cases cur_remote ⟨sdk, tid, msgs, inv, fg, fr, fc, hooks⟩ refl pb qc prog with
  | error e => rfl
  | ok remote =>
      cases remote with
      | some o => rfl
      | none =>
          cases run_curator_locally ⟨sdk, tid, msgs, inv, fg, fr, fc, hooks⟩
              refl pb qc prog with
          | error e => rfl
          | ok o => rfl

/-- C8: `emit` invokes exactly the matchers whose label equals the
emitted event, in registration order, and a raising callback neither
prevents later matchers from being invoked nor changes the role
invocation's returned output (each runner's result is independent of
the registered hooks, raising or not). -/
theorem claim_C8 :
    (∀ (hooks : List HookMatcher) (event : String) (payload : Payload),
      (emit_hook hooks event payload).map Prod.fst =
        (hooks.filter (fun h => h.event == event)).map HookMatcher.id) ∧
    (∀ (s : ACEClaudeSession) (hooks' : List HookMatcher) (q : String)
        (ctx refl : Option String) (pb : Playbook) (sample : Option JValue)
        (epoch step : Option Int),
      (run_generator { s with hooks := hooks' } q ctx pb refl sample epoch step).result =
        (run_generator s q ctx pb refl sample epoch step).result) ∧
    (∀ (s : ACEClaudeSession) (hooks' : List HookMatcher) (q : String)
        (go : GeneratorOutput) (pb : Playbook) (gt fb : Option String)
        (sample : Option JValue) (epoch step : Option Int),
      (run_reflector { s with hooks := hooks' } q go pb gt fb sample epoch step).result =
        (run_reflector s q go pb gt fb sample epoch step).result) ∧
    (∀ (s : ACEClaudeSession) (hooks' : List HookMatcher) (refl : ReflectorOutput)
        (pb : Playbook) (qc prog : String) (sample : Option JValue)
        (epoch step : Option Int),
      (run_curator { s with hooks := hooks' } refl pb qc prog sample epoch step).result =
        (run_curator s refl pb qc prog sample epoch step).result) := by
  refine ⟨?_,
    fun s hooks' q ctx refl pb sample epoch step =>
      run_generator_result_hooks s hooks' q ctx pb refl sample epoch step,
    run_reflector_result_hooks, run_curator_result_hooks⟩
  intro hooks event payload
  induction hooks with
  | nil => rfl
  | cons h t ih =>
      by_cases he : h.event = event
      · simp [emit_hook, hookMatcherCall, he, ih]
      · simp [emit_hook, hookMatcherCall, he, ih]
